import Mathlib

/-!
Shallow embedding of the `MeetingIntelligence` class of
`modules__meeting_intelligence.py` (Revvel Email Organizer, meeting
intelligence module).

Modelling conventions:
* External collaborators (Google-style calendar service, Fathom transcript
  HTTP endpoint, the LLM client, the chat-completions HTTP endpoint, the
  `eval` builtin applied to the serialized attendee field, and
  `datetime.fromisoformat`) are supplied as environment records whose fields
  return `Except Exn _`: an `.error` value is a Python exception raised at
  that call site.
* The SQLAlchemy session is a `DB` record.  `db.add` appends to
  `pendingAdds`; `commit` flushes `pendingAdds` into `meetings`.  Reads and
  in-place attribute mutation act on `meetings` (the session-visible rows).
  Auto-increment id assignment is out of scope; rows created by calendar
  sync carry id 0 and are never re-queried by the claims.
* Timestamps are `Int` (seconds); Python string slicing `s[:n]` is
  `String.take`; Python `str(list_of_str)` is `pyStrList`.
* Each method returns `(Except Exn ret) × DB × List Effect`: an `.error`
  first component is an exception propagating out of the method, and the
  `Effect` trace records the observable external interactions in order.
-/

/-- Python exception, identified by its message. -/
abbrev Exn := String

/-- Observable external interactions performed by a method call. -/
inductive Effect where
  | calendarApi
  | dbAdd
  | dbCommit
  | llmSummarize
  | llmExtract
  | httpGet
  | httpPost
deriving DecidableEq, Repr

/-- Modelled from the spec: the `Meeting` record of `core.models` (not under
`src/`), with exactly the columns the module reads or writes: account and
calendar identifiers, external event id, title, optional description,
start/end timestamps, serialized attendee list, optional location, meeting
link, transcript, prep summary, serialized action items, Fathom recording
id, and the summary used by the follow-up prompt. -/
structure MeetingRow where
  id : Nat
  account_id : Int
  calendar_id : String
  event_id : String
  title : String
  description : Option String := none
  start_time : Int
  end_time : Int
  attendees : Option String := none
  location : Option String := none
  meeting_link : Option String := none
  transcript : Option String := none
  prep_summary : Option String := none
  action_items : Option String := none
  fathom_id : Option String := none
  summary : Option String := none
deriving DecidableEq, Repr

/-- Modelled from the spec: the `Email` record of `core.models` (not under
`src/`); read-only here (sender, subject, body, received timestamp). -/
structure Email where
  sender : String
  subject : String
  body : String
  received_at : Int
deriving DecidableEq, Repr

/-- The SQLAlchemy session: committed/visible `meetings` rows, rows added
but not yet committed, and the read-only email table. -/
structure DB where
  meetings : List MeetingRow
  pendingAdds : List MeetingRow
  emails : List Email
deriving DecidableEq, Repr

/-- Flushing a commit: pending adds become visible rows. -/
def commitDB (db : DB) : DB :=
  { db with meetings := db.meetings ++ db.pendingAdds, pendingAdds := [] }

/-- Mutation of the single row returned by `.filter(Meeting.id == mid).first()`. -/
def updateMeeting (mid : Nat) (f : MeetingRow → MeetingRow) : List MeetingRow → List MeetingRow
  | [] => []
  | m :: ms => if m.id == mid then f m :: ms else m :: updateMeeting mid f ms

/-- Python truthiness of an optional string column: `None` and `''` are falsy. -/
def pyTruthyStr : Option String → Bool
  | none => false
  | some s => !(s == "")

/-- Python `x or default` for an optional string (used in f-strings). -/
def pyOrElse (v : Option String) (dflt : String) : String :=
  match v with
  | none => dflt
  | some s => if s == "" then dflt else s

/-- Python `f"{x}"` on an optional string: `None` prints as `"None"`. -/
def pyShow (v : Option String) : String := v.getD "None"

/-- Python `repr` of a string without quote or backslash characters. -/
def pyReprStr (s : String) : String := "'" ++ s ++ "'"

/-- Python `str` applied to a list of plain strings. -/
def pyStrList (l : List String) : String :=
  "[" ++ String.intercalate ", " (l.map pyReprStr) ++ "]"

/-- Dictionary access `d[k]` on an optional field: a missing key raises `KeyError`. -/
def getKey (o : Option α) : Except Exn α :=
  match o with
  | none => .error "KeyError"
  | some a => .ok a

/-! ## Calendar events, as returned by the calendar provider -/

/-- An event's `start`/`end` dictionary: optional `dateTime` and `date` keys. -/
structure EventTime where
  dateTime : Option String := none
  date : Option String := none
deriving DecidableEq, Repr

/-- One entry of `event['attendees']`; `a['email']` raises if the key is missing. -/
structure Attendee where
  email : Option String := none
deriving DecidableEq, Repr

/-- One entry of `conferenceData.entryPoints`. -/
structure EntryPoint where
  uri : Option String := none
deriving DecidableEq, Repr

/-- The `conferenceData` dictionary; `entryPoints` may itself be missing. -/
structure ConferenceData where
  entryPoints : Option (List EntryPoint) := none
deriving DecidableEq, Repr

/-- One item of the calendar response, with exactly the keys the sync reads.
Optional fields model `.get` lookups; `id` and `summary` are accessed with
`[]` and raise when absent. -/
structure CalEvent where
  id : Option String := none
  summary : Option String := none
  description : Option String := none
  start : EventTime := {}
  end_ : EventTime := {}
  attendees : Option (List Attendee) := none
  location : Option String := none
  conferenceData : Option ConferenceData := none
deriving DecidableEq, Repr

/-- Evaluation of
`event.get('conferenceData', {}).get('entryPoints', [{}])[0].get('uri')`:
a present but empty `entryPoints` list makes `[0]` raise `IndexError`. -/
def meetingLinkOf : Option ConferenceData → Except Exn (Option String)
  | none => .ok none
  | some cd =>
    match cd.entryPoints with
    | none => .ok none
    | some [] => .error "IndexError"
    | some (ep :: _) => .ok ep.uri

/-- Construction of the `Meeting(...)` row from one event (source lines
46-57), with the field accesses in source order; any raising access makes
the whole construction raise. -/
def buildMeeting (parseTime : String → Except Exn Int) (account_id : Int)
    (e : CalEvent) : Except Exn MeetingRow := do
  let eid ← getKey e.id
  let title ← getKey e.summary
  let startRaw ← getKey (e.start.dateTime <|> e.start.date)
  let start_time ← parseTime (startRaw.replace "Z" "+00:00")
  let endRaw ← getKey (e.end_.dateTime <|> e.end_.date)
  let end_time ← parseTime (endRaw.replace "Z" "+00:00")
  let emails ← (e.attendees.getD []).mapM (fun a => getKey a.email)
  let link ← meetingLinkOf e.conferenceData
  pure
    { id := 0
      account_id := account_id
      calendar_id := "primary"
      event_id := eid
      title := title
      description := e.description
      start_time := start_time
      end_time := end_time
      attendees := some (pyStrList emails)
      location := e.location
      meeting_link := link }

/-- Environment of `sync_calendar_events`: the outcome of the
`events().list(...).execute()` call (already reduced to the `items` list,
`.get('items', [])` included), the semantics of `datetime.fromisoformat`,
and the outcome of the final `db.commit()`. -/
structure SyncEnv where
  events : Except Exn (List CalEvent)
  parseTime : String → Except Exn Int
  commit : Except Exn Unit

/-- The `results` dictionary of the sync. -/
structure SyncResult where
  synced : Nat
  errors : Nat
deriving DecidableEq, Repr

/-- Outcome of the `for event in ...` loop: either an exception after `k`
events were built and added, or successful completion. -/
inductive LoopOut where
  | failed (synced : Nat) (rows : List MeetingRow)
  | done (synced : Nat) (rows : List MeetingRow)
deriving Repr

/-- The event loop (source lines 45-60): each iteration builds a row, adds
it, and increments `results['synced']`; a raising build aborts the loop. -/
def syncLoop (parseTime : String → Except Exn Int) (account_id : Int) :
    List CalEvent → LoopOut
  | [] => .done 0 []
  | e :: es =>
    match buildMeeting parseTime account_id e with
    | .error _ => .failed 0 []
    | .ok m =>
      match syncLoop parseTime account_id es with
      | .failed k rows => .failed (k + 1) (m :: rows)
      | .done k rows => .done (k + 1) (m :: rows)

/-- `sync_calendar_events` (source lines 28-68): list events, build and add
one row per event, commit once after the loop; the `except` clause turns any
raise into `results['errors'] += 1`, keeping the `synced` count reached. -/
def sync_calendar_events (env : SyncEnv) (account_id : Int) (db : DB) :
    Except Exn SyncResult × DB × List Effect :=
  match env.events with
  | .error _ => (.ok ⟨0, 1⟩, db, [.calendarApi])
  | .ok items =>
    match syncLoop env.parseTime account_id items with
    | .failed k rows =>
      (.ok ⟨k, 1⟩, { db with pendingAdds := db.pendingAdds ++ rows },
        .calendarApi :: List.replicate k .dbAdd)
    | .done k rows =>
      match env.commit with
      | .error _ =>
        (.ok ⟨k, 1⟩, { db with pendingAdds := db.pendingAdds ++ rows },
          .calendarApi :: (List.replicate k .dbAdd ++ [.dbCommit]))
      | .ok _ =>
        (.ok ⟨k, 0⟩, commitDB { db with pendingAdds := db.pendingAdds ++ rows },
          .calendarApi :: (List.replicate k .dbAdd ++ [.dbCommit]))

/-! ## Meeting prep generation -/

/-- One element of the `email_data` list sent to `summarize_thread`. -/
structure EmailData where
  sender : String
  subject : String
  body : String
  date : Int
deriving DecidableEq, Repr

/-- Newest-first order on emails, as produced by
`.order_by(Email.received_at.desc())`. -/
def emailGe (a b : Email) : Prop := b.received_at ≤ a.received_at

instance : DecidableRel emailGe := fun a b => by
  unfold emailGe; infer_instance

instance : IsTotal Email emailGe :=
  ⟨fun a b => le_total b.received_at a.received_at⟩

instance : IsTrans Email emailGe :=
  ⟨fun _ _ _ h1 h2 => le_trans h2 h1⟩

/-- The query of source lines 79-81: filter emails whose sender is in the
attendee list, order newest-first, keep at most 10. -/
def prepQuery (db : DB) (senders : List String) : List Email :=
  (List.insertionSort emailGe
    (db.emails.filter (fun e => decide (e.sender ∈ senders)))).take 10

/-- The `email_data` list of source lines 83-91, each body truncated to its
first 500 characters. -/
def prepEmailData (db : DB) (senders : List String) : List EmailData :=
  (prepQuery db senders).map
    (fun e => ⟨e.sender, e.subject, e.body.take 500, e.received_at⟩)

/-- Environment of `generate_meeting_prep`: the semantics of `eval` on the
serialized attendee field (results other than a list of strings surface as
exceptions at or after the query), the LLM `summarize_thread` call, and the
outcome of `db.commit()`. -/
structure PrepEnv where
  evalAttendees : String → Except Exn (List String)
  summarize : List EmailData → Except Exn String
  commit : Except Exn Unit

/-- `generate_meeting_prep` (source lines 70-100): missing meeting returns
`""` before the `try`; inside the `try`, `eval` the attendee field when it
is a string (else `[]`), query the emails, summarize, store the summary and
commit; the `except` clause converts any raise into `""`. -/
def generate_meeting_prep (env : PrepEnv) (meeting_id : Nat) (db : DB) :
    Except Exn String × DB × List Effect :=
  match db.meetings.find? (fun m => m.id == meeting_id) with
  | none => (.ok "", db, [])
  | some meeting =>
    match (match meeting.attendees with
           | some s => env.evalAttendees s
           | none => .ok []) with
    | .error _ => (.ok "", db, [])
    | .ok attendees =>
      match env.summarize (prepEmailData db attendees) with
      | .error _ => (.ok "", db, [.llmSummarize])
      | .ok summary =>
        match env.commit with
        | .error _ =>
          (.ok "",
            { db with meetings := updateMeeting meeting_id (fun m => { m with prep_summary := some summary }) db.meetings },
            [.llmSummarize, .dbCommit])
        | .ok _ =>
          (.ok summary,
            { db with meetings := updateMeeting meeting_id (fun m => { m with prep_summary := some summary }) db.meetings },
            [.llmSummarize, .dbCommit])

/-! ## Fathom transcript import -/

/-- The HTTP response of the Fathom transcript endpoint: a status code and,
when `response.json()` is consulted, either a raise (malformed JSON) or the
optional `transcript` field (`data.get('transcript', '')` defaults to `''`). -/
structure FathomResp where
  status_code : Nat
  jsonTranscript : Except Exn (Option String)

/-- Environment of `import_fathom_transcript`: whether
`settings.fathom_api_key` is truthy, the outcome of the `httpx` GET, and the
outcome of `db.commit()`. -/
structure FathomEnv where
  apiKeyPresent : Bool
  response : Except Exn FathomResp
  commit : Except Exn Unit

/-- `import_fathom_transcript` (source lines 102-132): no-op without an API
key; on a 200 response parse the transcript, and only if the meeting exists
store transcript and recording id and commit; on a non-200 response or any
raise inside the `try`, return `None`. -/
def import_fathom_transcript (env : FathomEnv) (meeting_id : Nat)
    (fathom_recording_id : String) (db : DB) :
    Except Exn (Option String) × DB × List Effect :=
  if !env.apiKeyPresent then (.ok none, db, [])
  else
    match env.response with
    | .error _ => (.ok none, db, [.httpGet])
    | .ok resp =>
      if resp.status_code == 200 then
        match resp.jsonTranscript with
        | .error _ => (.ok none, db, [.httpGet])
        | .ok tOpt =>
          let transcript := tOpt.getD ""
          match db.meetings.find? (fun m => m.id == meeting_id) with
          | none => (.ok (some transcript), db, [.httpGet])
          | some _ =>
            match env.commit with
            | .error _ =>
              (.ok none,
                { db with meetings := updateMeeting meeting_id (fun m => { m with transcript := some transcript, fathom_id := some fathom_recording_id }) db.meetings },
                [.httpGet, .dbCommit])
            | .ok _ =>
              (.ok (some transcript),
                { db with meetings := updateMeeting meeting_id (fun m => { m with transcript := some transcript, fathom_id := some fathom_recording_id }) db.meetings },
                [.httpGet, .dbCommit])
      else (.ok none, db, [.httpGet])

/-! ## Action-item extraction -/

/-- Environment of `extract_action_items_from_meeting`: the LLM
`extract_action_items` call and the outcome of `db.commit()`. -/
structure ExtractEnv where
  extractItems : String → Except Exn (List String)
  commit : Except Exn Unit

/-- `extract_action_items_from_meeting` (source lines 134-144): returns `[]`
when the meeting is missing or its transcript is falsy; otherwise calls the
LLM, stores `str(action_items)` and commits.  The method body has no
`try/except`, so a raise from the LLM call or the commit propagates
(`.error` result). -/
def extract_action_items_from_meeting (env : ExtractEnv) (meeting_id : Nat)
    (db : DB) : Except Exn (List String) × DB × List Effect :=
  match db.meetings.find? (fun m => m.id == meeting_id) with
  | none => (.ok [], db, [])
  | some meeting =>
    if pyTruthyStr meeting.transcript then
      match env.extractItems (meeting.transcript.getD "") with
      | .error e => (.error e, db, [.llmExtract])
      | .ok action_items =>
        match env.commit with
        | .error e =>
          (.error e,
            { db with meetings := updateMeeting meeting_id (fun m => { m with action_items := some (pyStrList action_items) }) db.meetings },
            [.llmExtract, .dbCommit])
        | .ok _ =>
          (.ok action_items,
            { db with meetings := updateMeeting meeting_id (fun m => { m with action_items := some (pyStrList action_items) }) db.meetings },
            [.llmExtract, .dbCommit])
    else (.ok [], db, [])

/-! ## Follow-up email generation -/

/-- The prompt f-string of source lines 152-159. -/
def followupPrompt (m : MeetingRow) : String :=
  "Generate a professional follow-up email after this meeting:\n\nTitle: "
    ++ m.title
    ++ "\nAttendees: " ++ pyShow m.attendees
    ++ "\nSummary: " ++ pyOrElse m.summary "No summary available"
    ++ "\nAction Items: " ++ pyOrElse m.action_items "None"
    ++ "\n\nWrite a concise follow-up email."

/-- The chat-completions HTTP response: a status code and, on the 200 path,
the evaluation of `result["choices"][0]["message"]["content"]` (a raise
covers malformed JSON, an empty `choices` list, or missing keys). -/
structure ChatResp where
  status_code : Nat
  firstChoiceContent : Except Exn String

/-- Environment of `generate_followup_email`: the outcome of the `httpx`
POST as a function of the prompt sent. -/
structure FollowupEnv where
  response : String → Except Exn ChatResp

/-- `generate_followup_email` (source lines 146-185): missing meeting
returns `""` before the `try`; on a 200 response return the first choice's
content; on a non-200 response or any raise inside the `try`, return the
fixed fallback string. -/
def generate_followup_email (env : FollowupEnv) (meeting_id : Nat) (db : DB) :
    Except Exn String × DB × List Effect :=
  match db.meetings.find? (fun m => m.id == meeting_id) with
  | none => (.ok "", db, [])
  | some meeting =>
    match env.response (followupPrompt meeting) with
    | .error _ => (.ok "Unable to generate follow-up email", db, [.httpPost])
    | .ok resp =>
      if resp.status_code == 200 then
        match resp.firstChoiceContent with
        | .error _ => (.ok "Unable to generate follow-up email", db, [.httpPost])
        | .ok content => (.ok content, db, [.httpPost])
      else (.ok "Unable to generate follow-up email", db, [.httpPost])

/-! ## Auxiliary predicate and concrete sample data -/

/-- Whether an embedded method call returned normally (no exception
propagated out of it). -/
def exceptOk : Except Exn α → Bool
  | .ok _ => true
  | .error _ => false

/-- A stored meeting with a serialized attendee list and a transcript. -/
def sampleMeeting : MeetingRow :=
  { id := 1
    account_id := 7
    calendar_id := "primary"
    event_id := "ev1"
    title := "Quarterly Review"
    start_time := 100
    end_time := 200
    attendees := some "['alice@example.com']"
    transcript := some "We agreed on the roadmap." }

/-- An email from the attendee of `sampleMeeting`. -/
def sampleEmail : Email :=
  { sender := "alice@example.com"
    subject := "Roadmap"
    body := "Here is the plan."
    received_at := 50 }

/-- A session holding `sampleMeeting` and `sampleEmail`. -/
def sampleDB : DB :=
  { meetings := [sampleMeeting], pendingAdds := [], emails := [sampleEmail] }

/-- An empty session. -/
def emptyDB : DB := { meetings := [], pendingAdds := [], emails := [] }

/-- An ISO-timestamp semantics that accepts every string. -/
def okParseTime : String → Except Exn Int := fun _ => .ok 0

/-- A well-formed calendar event. -/
def okEventSample : CalEvent :=
  { id := some "e1"
    summary := some "Standup"
    start := { dateTime := some "2025-01-01T10:00:00Z" }
    end_ := { dateTime := some "2025-01-01T11:00:00Z" }
    attendees := some [{ email := some "alice@example.com" }] }

/-- An event whose `event['summary']` access raises `KeyError`. -/
def badEventSample : CalEvent := { okEventSample with summary := none }

/-- A sync environment whose event list raises partway (second event bad). -/
def syncEnvPartway : SyncEnv :=
  { events := .ok [okEventSample, badEventSample]
    parseTime := okParseTime
    commit := .ok () }

/-- A sync environment with two well-formed events. -/
def syncEnvTwoGood : SyncEnv :=
  { events := .ok [okEventSample, okEventSample]
    parseTime := okParseTime
    commit := .ok () }

/-- A prep environment whose `eval`, LLM call and commit all succeed. -/
def prepEnvSample : PrepEnv :=
  { evalAttendees := fun _ => .ok ["alice@example.com"]
    summarize := fun _ => .ok "Summary text"
    commit := .ok () }

/-- A successful Fathom response carrying a transcript. -/
def fathomRespOk : FathomResp :=
  { status_code := 200, jsonTranscript := .ok (some "hello") }

/-- A failing Fathom response (HTTP 500). -/
def fathomResp500 : FathomResp :=
  { status_code := 500, jsonTranscript := .ok none }

/-- A Fathom environment with a configured key and a 200 response. -/
def fathomEnvSample : FathomEnv :=
  { apiKeyPresent := true, response := .ok fathomRespOk, commit := .ok () }

/-- A Fathom environment with a configured key and a 500 response. -/
def fathomEnv500 : FathomEnv :=
  { apiKeyPresent := true, response := .ok fathomResp500, commit := .ok () }

/-- A successful chat-completions response. -/
def chatRespOk : ChatResp :=
  { status_code := 200, firstChoiceContent := .ok "Thanks all." }

/-- A follow-up environment answering every prompt with `chatRespOk`. -/
def followupEnvSample : FollowupEnv :=
  { response := fun _ => .ok chatRespOk }

/-- An extraction environment whose LLM call raises. -/
def extractEnvBoom : ExtractEnv :=
  { extractItems := fun _ => .error "boom", commit := .ok () }

/-- An extraction environment whose LLM call succeeds. -/
def extractEnvOk : ExtractEnv :=
  { extractItems := fun _ => .ok ["Send deck"], commit := .ok () }

/-! ## Helper lemmas -/

/-- Calendar sync never lets an exception escape: every branch of its
`try/except` yields a normal `results` dictionary. -/
theorem sync_calendar_events_total (env : SyncEnv) (aid : Int) (db : DB) :
    exceptOk (sync_calendar_events env aid db).1 = true := by
  unfold sync_calendar_events
  repeat' split
  all_goals rfl

/-- Meeting prep generation never lets an exception escape. -/
theorem generate_meeting_prep_total (env : PrepEnv) (mid : Nat) (db : DB) :
    exceptOk (generate_meeting_prep env mid db).1 = true := by
  unfold generate_meeting_prep
  repeat' split
  all_goals rfl

/-- Transcript import never lets an exception escape. -/
theorem import_fathom_total (env : FathomEnv) (mid : Nat) (rid : String) (db : DB) :
    exceptOk (import_fathom_transcript env mid rid db).1 = true := by
  unfold import_fathom_transcript
  repeat' split
  all_goals rfl

/-- Follow-up composition never lets an exception escape. -/
theorem generate_followup_total (env : FollowupEnv) (mid : Nat) (db : DB) :
    exceptOk (generate_followup_email env mid db).1 = true := by
  unfold generate_followup_email
  repeat' split
  all_goals rfl

/-- When every event of the list builds successfully, the loop completes,
counting and adding one row per event. -/
theorem syncLoop_all_ok (pt : String → Except Exn Int) (aid : Int) :
    ∀ items : List CalEvent, (∀ e ∈ items, exceptOk (buildMeeting pt aid e) = true) →
      ∃ rows, syncLoop pt aid items = .done items.length rows ∧
        rows.length = items.length := by
  intro items
  induction items with
  | nil => exact fun _ => ⟨[], rfl, rfl⟩
  | cons e es ih =>
    intro h
    have he := h e (List.mem_cons_self e es)
    obtain ⟨rows, hr, hlen⟩ := ih (fun x hx => h x (List.mem_cons_of_mem e hx))
    rcases hm : buildMeeting pt aid e with err | m
    · rw [hm] at he
      exact absurd he (by simp [exceptOk])
    · refine ⟨m :: rows, ?_, by simp [hlen]⟩
      simp [syncLoop, hm, hr]

/-- When a prefix of events builds successfully and the next event's build
raises, the loop aborts, having counted exactly the prefix. -/
theorem syncLoop_partway (pt : String → Except Exn Int) (aid : Int) :
    ∀ good : List CalEvent, (∀ e ∈ good, exceptOk (buildMeeting pt aid e) = true) →
    ∀ (bad : CalEvent) (rest : List CalEvent),
      exceptOk (buildMeeting pt aid bad) = false →
      ∃ rows, syncLoop pt aid (good ++ bad :: rest) = .failed good.length rows := by
  intro good
  induction good with
  | nil =>
    intro _ bad rest hbad
    rcases hm : buildMeeting pt aid bad with err | m
    · exact ⟨[], by simp [syncLoop, hm]⟩
    · rw [hm] at hbad
      exact absurd hbad (by simp [exceptOk])
  | cons e es ih =>
    intro h bad rest hbad
    have he := h e (List.mem_cons_self e es)
    obtain ⟨rows, hr⟩ := ih (fun x hx => h x (List.mem_cons_of_mem e hx)) bad rest hbad
    rcases hm : buildMeeting pt aid e with err | m
    · rw [hm] at he
      exact absurd he (by simp [exceptOk])
    · exact ⟨m :: rows, by simp [syncLoop, hm, hr]⟩

/-- A raise in the action-item LLM call propagates out of
`extract_action_items_from_meeting`. -/
theorem extract_llm_raise_propagates (env : ExtractEnv) (mid : Nat) (db : DB)
    (m : MeetingRow) (e : Exn)
    (hm : db.meetings.find? (fun x => x.id == mid) = some m)
    (ht : pyTruthyStr m.transcript = true)
    (hx : env.extractItems (m.transcript.getD "") = .error e) :
    extract_action_items_from_meeting env mid db = (.error e, db, [.llmExtract]) := by
  unfold extract_action_items_from_meeting
  rw [hm]
  simp only [ht, if_true, hx]

/-- Updating the first row with the wanted id rewrites exactly the row that
`find?` returns, provided the update preserves the id. -/
theorem find?_updateMeeting (mid : Nat) (f : MeetingRow → MeetingRow)
    (hf : ∀ m : MeetingRow, (f m).id = m.id) :
    ∀ (ms : List MeetingRow) (m : MeetingRow),
      ms.find? (fun x => x.id == mid) = some m →
      (updateMeeting mid f ms).find? (fun x => x.id == mid) = some (f m) := by
  intro ms
  induction ms with
  | nil => intro m hm; simp [List.find?] at hm
  | cons m0 ms ih =>
    intro m hm
    by_cases h0 : (m0.id == mid) = true
    · simp only [List.find?, h0] at hm
      injection hm with hm
      subst hm
      have hfid : ((f m0).id == mid) = true := by rw [hf m0]; exact h0
      simp [updateMeeting, h0, List.find?, hfid]
    · have h0' : (m0.id == mid) = false := by simpa using h0
      simp only [List.find?, h0'] at hm
      simp [updateMeeting, h0', List.find?, ih m hm]

/-- The query keeps at most 10 emails (`limit(10)`). -/
theorem prepQuery_length_le (db : DB) (senders : List String) :
    (prepQuery db senders).length ≤ 10 := by
  unfold prepQuery
  rw [List.length_take]
  exact Nat.min_le_left _ _

/-- The query result is ordered newest-first
(`order_by(Email.received_at.desc())`). -/
theorem prepQuery_sorted (db : DB) (senders : List String) :
    List.Pairwise (fun a b : Email => b.received_at ≤ a.received_at)
      (prepQuery db senders) := by
  unfold prepQuery
  have hs : List.Sorted emailGe
      (List.insertionSort emailGe
        (db.emails.filter (fun e => decide (e.sender ∈ senders)))) :=
    List.sorted_insertionSort emailGe _
  exact hs.sublist (List.take_sublist _ _)

/-- Every selected email is a stored email from one of the given senders
(`filter(Email.sender.in_(attendees))`). -/
theorem prepQuery_mem (db : DB) (senders : List String) (e : Email)
    (he : e ∈ prepQuery db senders) : e ∈ db.emails ∧ e.sender ∈ senders := by
  unfold prepQuery at he
  have h1 := List.take_subset 10 _ he
  rw [List.mem_insertionSort, List.mem_filter] at h1
  exact ⟨h1.1, of_decide_eq_true h1.2⟩

/-- The selection is maximal: every matching stored email left out is no
newer than any selected one (the 10 kept are the most recent). -/
theorem prepQuery_maximal (db : DB) (senders : List String) :
    ∀ x ∈ prepQuery db senders, ∀ e ∈ db.emails, e.sender ∈ senders →
      e ∉ prepQuery db senders → e.received_at ≤ x.received_at := by
  intro x hx e he hs hnot
  unfold prepQuery at hx hnot
  set s := List.insertionSort emailGe
    (db.emails.filter (fun a => decide (a.sender ∈ senders))) with hsdef
  have hes : e ∈ s := by
    rw [hsdef, List.mem_insertionSort, List.mem_filter]
    exact ⟨he, decide_eq_true hs⟩
  have hsplit := List.take_append_drop 10 s
  have hdrop : e ∈ s.drop 10 := by
    rcases List.mem_append.mp (by rw [hsplit]; exact hes) with h | h
    · exact absurd h hnot
    · exact h
  have hpw : List.Pairwise emailGe s := List.sorted_insertionSort emailGe _
  rw [← hsplit] at hpw
  exact (List.pairwise_append.mp hpw).2.2 x hx e hdrop

/-! ## Claims -/

/-- C1, counterexample: the claim says every component method converts any
internal exception into its benign default return value.  It is false for
`extract_action_items_from_meeting`: with the meeting present and carrying a
transcript, a raise in the LLM call propagates out of the method as an
exception instead of yielding the benign `[]`. -/
theorem C1_counterexample :
    (extract_action_items_from_meeting extractEnvBoom 1 sampleDB).1 = .error "boom" ∧
    exceptOk (extract_action_items_from_meeting extractEnvBoom 1 sampleDB).1 = false :=
  ⟨rfl, rfl⟩

/-- C1, amended: calendar sync, meeting prep generation, transcript import
and follow-up composition catch every modelled exception at the method
boundary and return normally with the benign default; action-item
extraction, whose body has no `try/except`, propagates an exception raised
by the language-model call to the caller. -/
theorem C1_amended (se : SyncEnv) (pe : PrepEnv) (fe : FathomEnv)
    (ge : FollowupEnv) (xe : ExtractEnv) (aid : Int)
    (pmid fmid gmid xmid : Nat) (rid : String) (db : DB) (m : MeetingRow)
    (e : Exn)
    (hm : db.meetings.find? (fun x => x.id == xmid) = some m)
    (ht : pyTruthyStr m.transcript = true)
    (hx : xe.extractItems (m.transcript.getD "") = .error e) :
    exceptOk (sync_calendar_events se aid db).1 = true ∧
    exceptOk (generate_meeting_prep pe pmid db).1 = true ∧
    exceptOk (import_fathom_transcript fe fmid rid db).1 = true ∧
    exceptOk (generate_followup_email ge gmid db).1 = true ∧
    (extract_action_items_from_meeting xe xmid db).1 = .error e :=
  ⟨sync_calendar_events_total se aid db,
   generate_meeting_prep_total pe pmid db,
   import_fathom_total fe fmid rid db,
   generate_followup_total ge gmid db,
   by rw [extract_llm_raise_propagates xe xmid db m e hm ht hx]⟩

/-- C1 witness: concrete instantiation of the amended claim. -/
theorem C1_amended_witness :
    exceptOk (sync_calendar_events syncEnvTwoGood 7 sampleDB).1 = true ∧
    exceptOk (generate_meeting_prep prepEnvSample 1 sampleDB).1 = true ∧
    exceptOk (import_fathom_transcript fathomEnvSample 1 "rec9" sampleDB).1 = true ∧
    exceptOk (generate_followup_email followupEnvSample 1 sampleDB).1 = true ∧
    (extract_action_items_from_meeting extractEnvBoom 1 sampleDB).1 = .error "boom" :=
  C1_amended syncEnvTwoGood prepEnvSample fathomEnvSample followupEnvSample
    extractEnvBoom 7 1 1 1 1 "rec9" sampleDB sampleMeeting "boom" rfl rfl rfl

/-- C2: when the event loop raises partway (a prefix of events builds, the
next build raises), the sync returns `errors == 1` regardless of how many
events were already processed, the persisted rows are untouched, and no
commit is issued. -/
theorem C2_sync_partway_single_error (env : SyncEnv) (aid : Int) (db : DB)
    (good : List CalEvent) (bad : CalEvent) (rest : List CalEvent)
    (hev : env.events = .ok (good ++ bad :: rest))
    (hgood : ∀ e ∈ good, exceptOk (buildMeeting env.parseTime aid e) = true)
    (hbad : exceptOk (buildMeeting env.parseTime aid bad) = false) :
    (sync_calendar_events env aid db).1 = .ok ⟨good.length, 1⟩ ∧
    (sync_calendar_events env aid db).2.1.meetings = db.meetings ∧
    Effect.dbCommit ∉ (sync_calendar_events env aid db).2.2 := by
  obtain ⟨rows, hl⟩ := syncLoop_partway env.parseTime aid good hgood bad rest hbad
  have heval : sync_calendar_events env aid db =
      (.ok ⟨good.length, 1⟩, { db with pendingAdds := db.pendingAdds ++ rows },
        .calendarApi :: List.replicate good.length .dbAdd) := by
    unfold sync_calendar_events
    rw [hev]
    dsimp only
    rw [hl]
  refine ⟨by rw [heval], by rw [heval], ?_⟩
  rw [heval]
  intro hmem
  rcases List.mem_cons.mp hmem with h | h
  · cases h
  · exact absurd (List.eq_of_mem_replicate h) (by intro h2; cases h2)

/-- C2 witness: one good event followed by a bad one. -/
theorem C2_witness :
    (sync_calendar_events syncEnvPartway 7 sampleDB).1 = .ok ⟨1, 1⟩ ∧
    (sync_calendar_events syncEnvPartway 7 sampleDB).2.1.meetings = sampleDB.meetings ∧
    Effect.dbCommit ∉ (sync_calendar_events syncEnvPartway 7 sampleDB).2.2 :=
  C2_sync_partway_single_error syncEnvPartway 7 sampleDB [okEventSample]
    badEventSample [] rfl
    (by intro e he; rw [List.mem_singleton] at he; subst he; rfl) rfl

/-- C3: when every event builds and the commit succeeds, the sync returns
`synced == N`, `errors == 0`, adds exactly N new rows to the store, and
issues a single commit after the loop. -/
theorem C3_sync_success (env : SyncEnv) (aid : Int) (db : DB)
    (items : List CalEvent)
    (hev : env.events = .ok items)
    (hall : ∀ e ∈ items, exceptOk (buildMeeting env.parseTime aid e) = true)
    (hc : env.commit = .ok ())
    (hp : db.pendingAdds = []) :
    (sync_calendar_events env aid db).1 = .ok ⟨items.length, 0⟩ ∧
    (∃ rows, rows.length = items.length ∧
      (sync_calendar_events env aid db).2.1.meetings = db.meetings ++ rows) ∧
    (sync_calendar_events env aid db).2.1.pendingAdds = [] ∧
    (sync_calendar_events env aid db).2.2 =
      .calendarApi :: (List.replicate items.length .dbAdd ++ [.dbCommit]) := by
  obtain ⟨rows, hl, hlen⟩ := syncLoop_all_ok env.parseTime aid items hall
  have heval : sync_calendar_events env aid db =
      (.ok ⟨items.length, 0⟩,
        commitDB { db with pendingAdds := db.pendingAdds ++ rows },
        .calendarApi :: (List.replicate items.length .dbAdd ++ [.dbCommit])) := by
    unfold sync_calendar_events
    rw [hev]
    dsimp only
    rw [hl, hc]
  refine ⟨by rw [heval], ⟨rows, hlen, ?_⟩, ?_, by rw [heval]⟩
  · rw [heval]
    simp [commitDB, hp]
  · rw [heval]
    rfl

/-- C3 witness: two well-formed events starting from an empty session. -/
theorem C3_witness :
    (sync_calendar_events syncEnvTwoGood 7 emptyDB).1 = .ok ⟨2, 0⟩ ∧
    (∃ rows, rows.length = 2 ∧
      (sync_calendar_events syncEnvTwoGood 7 emptyDB).2.1.meetings =
        emptyDB.meetings ++ rows) ∧
    (sync_calendar_events syncEnvTwoGood 7 emptyDB).2.1.pendingAdds = [] ∧
    (sync_calendar_events syncEnvTwoGood 7 emptyDB).2.2 =
      .calendarApi :: (List.replicate 2 .dbAdd ++ [.dbCommit]) :=
  C3_sync_success syncEnvTwoGood 7 emptyDB [okEventSample, okEventSample] rfl
    (by
      intro e he
      rcases List.mem_cons.mp he with h | h
      · subst h; rfl
      · rw [List.mem_singleton] at h; subst h; rfl)
    rfl rfl

/-- C4: with the provider credential configured, a non-200 response or a
raise at the HTTP call makes transcript import return `None` and leaves the
session entirely unchanged (no transcript or recording-id write, no
commit). -/
theorem C4_failed_import_writes_nothing (env : FathomEnv) (mid : Nat)
    (rid : String) (db : DB)
    (hk : env.apiKeyPresent = true)
    (hfail : (∃ e, env.response = .error e) ∨
      ∃ resp, env.response = .ok resp ∧ resp.status_code ≠ 200) :
    import_fathom_transcript env mid rid db = (.ok none, db, [.httpGet]) := by
  unfold import_fathom_transcript
  rw [hk]
  rcases hfail with ⟨e, he⟩ | ⟨resp, hr, hne⟩
  · rw [he]
    simp
  · rw [hr]
    have h2 : (resp.status_code == 200) = false := by simpa using hne
    simp [h2]

/-- C4 witness: an HTTP 500 response against the stored meeting. -/
theorem C4_witness :
    import_fathom_transcript fathomEnv500 1 "rec9" sampleDB =
      (.ok none, sampleDB, [.httpGet]) :=
  C4_failed_import_writes_nothing fathomEnv500 1 "rec9" sampleDB rfl
    (Or.inr ⟨fathomResp500, rfl, by decide⟩)

/-- C5: when the meeting is missing or its transcript is `None`/empty,
action-item extraction returns `[]` with no LLM call, no store mutation and
no commit (empty effect trace, unchanged session). -/
theorem C5_extract_requires_transcript (env : ExtractEnv) (mid : Nat) (db : DB)
    (h : db.meetings.find? (fun x => x.id == mid) = none ∨
      ∃ m, db.meetings.find? (fun x => x.id == mid) = some m ∧
        pyTruthyStr m.transcript = false) :
    extract_action_items_from_meeting env mid db = (.ok [], db, []) := by
  unfold extract_action_items_from_meeting
  rcases h with h | ⟨m, hm, ht⟩
  · rw [h]
  · rw [hm]
    simp only [ht, Bool.false_eq_true, if_false]

/-- C5 witness: no meeting has id 99. -/
theorem C5_witness :
    extract_action_items_from_meeting extractEnvOk 99 sampleDB =
      (.ok [], sampleDB, []) :=
  C5_extract_requires_transcript extractEnvOk 99 sampleDB (Or.inl rfl)

/-- C6: prep generation for a meeting id that matches no stored meeting
returns the empty string with no email query, no LLM call, no store
mutation and no commit (empty effect trace, unchanged session). -/
theorem C6_prep_missing_meeting (env : PrepEnv) (mid : Nat) (db : DB)
    (h : db.meetings.find? (fun x => x.id == mid) = none) :
    generate_meeting_prep env mid db = (.ok "", db, []) := by
  unfold generate_meeting_prep
  rw [h]

/-- C6 witness: no meeting has id 99. -/
theorem C6_witness :
    generate_meeting_prep prepEnvSample 99 sampleDB = (.ok "", sampleDB, []) :=
  C6_prep_missing_meeting prepEnvSample 99 sampleDB rfl

/-- C7: for an existing meeting whose attendee field `eval`s to a list of
senders, prep generation summarizes the query result and stores the summary
on the meeting; the query keeps at most the 10 most recent matching emails,
newest-first, and each body sent to the summarizer is the email body
truncated to its first 500 characters. -/
theorem C7_prep_pipeline (env : PrepEnv) (mid : Nat) (db : DB)
    (m : MeetingRow) (s : String) (senders : List String) (summary : String)
    (hm : db.meetings.find? (fun x => x.id == mid) = some m)
    (ha : m.attendees = some s)
    (he : env.evalAttendees s = .ok senders)
    (hs : env.summarize (prepEmailData db senders) = .ok summary)
    (hc : env.commit = .ok ()) :
    generate_meeting_prep env mid db =
      (.ok summary,
        { db with meetings := updateMeeting mid (fun x => { x with prep_summary := some summary }) db.meetings },
        [.llmSummarize, .dbCommit]) ∧
    (∃ m', (generate_meeting_prep env mid db).2.1.meetings.find?
        (fun x => x.id == mid) = some m' ∧ m'.prep_summary = some summary) ∧
    (prepQuery db senders).length ≤ 10 ∧
    List.Pairwise (fun a b : Email => b.received_at ≤ a.received_at)
      (prepQuery db senders) ∧
    (∀ e ∈ prepQuery db senders, e ∈ db.emails ∧ e.sender ∈ senders) ∧
    (∀ x ∈ prepQuery db senders, ∀ e ∈ db.emails, e.sender ∈ senders →
      e ∉ prepQuery db senders → e.received_at ≤ x.received_at) ∧
    prepEmailData db senders =
      (prepQuery db senders).map
        (fun e => ⟨e.sender, e.subject, e.body.take 500, e.received_at⟩) := by
  have heval : generate_meeting_prep env mid db =
      (.ok summary,
        { db with meetings := updateMeeting mid (fun x => { x with prep_summary := some summary }) db.meetings },
        [.llmSummarize, .dbCommit]) := by
    unfold generate_meeting_prep
    rw [hm]
    dsimp only
    rw [ha]
    dsimp only
    rw [he]
    dsimp only
    rw [hs]
    dsimp only
    rw [hc]
  refine ⟨heval, ?_, prepQuery_length_le db senders, prepQuery_sorted db senders,
    fun e hx => prepQuery_mem db senders e hx, prepQuery_maximal db senders, rfl⟩
  refine ⟨{ m with prep_summary := some summary }, ?_, rfl⟩
  rw [heval]
  exact find?_updateMeeting mid
    (fun x => { x with prep_summary := some summary }) (fun _ => rfl)
    db.meetings m hm

/-- C7 witness: the stored summary is retrievable on the sample data. -/
theorem C7_witness :
    ∃ m', (generate_meeting_prep prepEnvSample 1 sampleDB).2.1.meetings.find?
        (fun x => x.id == 1) = some m' ∧ m'.prep_summary = some "Summary text" :=
  (C7_prep_pipeline prepEnvSample 1 sampleDB sampleMeeting
    "['alice@example.com']" ["alice@example.com"] "Summary text"
    rfl rfl rfl rfl rfl).2.1

/-- C8: for an existing meeting, a 200 chat-completions response yields
exactly the content string of the response's first choice; a non-200
response, a raise at the HTTP call, or a raise while reading the first
choice yields the fixed fallback string. -/
theorem C8_followup_content_or_fallback (env : FollowupEnv) (mid : Nat)
    (db : DB) (m : MeetingRow)
    (hm : db.meetings.find? (fun x => x.id == mid) = some m) :
    (∀ resp content, env.response (followupPrompt m) = .ok resp →
      resp.status_code = 200 → resp.firstChoiceContent = .ok content →
      generate_followup_email env mid db = (.ok content, db, [.httpPost])) ∧
    (∀ resp, env.response (followupPrompt m) = .ok resp →
      resp.status_code ≠ 200 →
      generate_followup_email env mid db =
        (.ok "Unable to generate follow-up email", db, [.httpPost])) ∧
    (∀ resp e, env.response (followupPrompt m) = .ok resp →
      resp.status_code = 200 → resp.firstChoiceContent = .error e →
      generate_followup_email env mid db =
        (.ok "Unable to generate follow-up email", db, [.httpPost])) ∧
    (∀ e, env.response (followupPrompt m) = .error e →
      generate_followup_email env mid db =
        (.ok "Unable to generate follow-up email", db, [.httpPost])) := by
  refine ⟨?_, ?_, ?_, ?_⟩
  · intro resp content hr h200 hcontent
    unfold generate_followup_email
    rw [hm]
    dsimp only
    rw [hr]
    simp [h200, hcontent]
  · intro resp hr hne
    unfold generate_followup_email
    rw [hm]
    dsimp only
    rw [hr]
    have h2 : (resp.status_code == 200) = false := by simpa using hne
    simp [h2]
  · intro resp e hr h200 hcontent
    unfold generate_followup_email
    rw [hm]
    dsimp only
    rw [hr]
    simp [h200, hcontent]
  · intro e hr
    unfold generate_followup_email
    rw [hm]
    dsimp only
    rw [hr]

/-- C8 witness: the successful-response conjunct on the sample data. -/
theorem C8_witness :
    generate_followup_email followupEnvSample 1 sampleDB =
      (.ok "Thanks all.", sampleDB, [.httpPost]) :=
  (C8_followup_content_or_fallback followupEnvSample 1 sampleDB sampleMeeting
    rfl).1 chatRespOk "Thanks all." rfl rfl rfl

/-- C9: with the credential configured and a 200 provider response, when
the meeting id matches no stored meeting the import still returns the
fetched transcript string while writing nothing: the session is unchanged
and no commit is issued (trace holds only the HTTP GET). -/
theorem C9_import_missing_meeting_returns_transcript (env : FathomEnv)
    (mid : Nat) (rid : String) (db : DB) (resp : FathomResp)
    (tOpt : Option String)
    (hk : env.apiKeyPresent = true)
    (hfind : db.meetings.find? (fun x => x.id == mid) = none)
    (hresp : env.response = .ok resp)
    (h200 : resp.status_code = 200)
    (hjson : resp.jsonTranscript = .ok tOpt) :
    import_fathom_transcript env mid rid db =
      (.ok (some (tOpt.getD "")), db, [.httpGet]) := by
  unfold import_fathom_transcript
  rw [hk]
  dsimp only
  rw [hresp]
  dsimp only
  rw [hjson, h200]
  simp [hfind]

/-- C9 witness: a 200 response against an empty session. -/
theorem C9_witness :
    import_fathom_transcript fathomEnvSample 1 "rec9" emptyDB =
      (.ok (some "hello"), emptyDB, [.httpGet]) :=
  C9_import_missing_meeting_returns_transcript fathomEnvSample 1 "rec9"
    emptyDB fathomRespOk (some "hello") rfl rfl rfl rfl rfl

/-- C10: for a meeting id matching no stored meeting, follow-up composition
returns the empty string (not the fixed fallback string) and performs no
call to the language-model backend (empty effect trace). -/
theorem C10_followup_missing_meeting (env : FollowupEnv) (mid : Nat) (db : DB)
    (hfind : db.meetings.find? (fun x => x.id == mid) = none) :
    generate_followup_email env mid db = (.ok "", db, []) ∧
    (.ok "" : Except Exn String) ≠ .ok "Unable to generate follow-up email" := by
  constructor
  · unfold generate_followup_email
    rw [hfind]
  · intro h
    injection h with h
    exact absurd h (by decide)

/-- C10 witness: no meeting has id 99. -/
theorem C10_witness :
    generate_followup_email followupEnvSample 99 sampleDB =
      (.ok "", sampleDB, []) ∧
    (.ok "" : Except Exn String) ≠ .ok "Unable to generate follow-up email" :=
  C10_followup_missing_meeting followupEnvSample 99 sampleDB rfl
